import Mathlib

/-!
Verification development for the PCL news sentiment pipeline (`src/main.py`).

The Python source is shallowly embedded: compound polarity scores are
rationals, Python dictionaries become association lists or `Option`-valued
lookups, the external NewsAPI client and the VADER scorer become function
parameters whose failure (a raised exception) is an `Except.error`, and the
`try`/`except` blocks of the source become matches on `Except`.
-/

/-- Embedding of `get_sentiment_label` (src/main.py lines 50-57): the
three-way threshold classifier on the compound score. The literal `0.05`
of the source is the exact rational `mkRat 5 100`. -/
def get_sentiment_label (compound_score : ℚ) : String :=
  if compound_score ≥ mkRat 5 100 then "Positive"
  else if compound_score ≤ -(mkRat 5 100) then "Negative"
  else "Neutral"

/-- Embedding of the `TOPICS` dictionary (src/main.py lines 39-48), as an
association list in source order. -/
def TOPICS : List (String × String) :=
  [("technology", "technology OR AI OR artificial intelligence OR software OR hardware"),
   ("business", "business OR economy OR market OR finance OR stocks"),
   ("politics", "politics OR government OR election OR policy"),
   ("sports", "sports OR football OR basketball OR soccer OR tennis"),
   ("entertainment", "entertainment OR movies OR music OR celebrities"),
   ("science", "science OR research OR discovery OR space OR medicine"),
   ("health", "health OR medical OR healthcare OR wellness"),
   ("environment", "environment OR climate OR nature OR conservation")]

/-- Python `dict` lookup returning `None` on a missing key: `d.get(k)`. -/
def dictLookup (d : List (String × String)) (k : String) : Option String :=
  (d.find? (fun p => p.1 == k)).map (fun p => p.2)

/-- Python `dict.get(k, default)`. -/
def dictGet (d : List (String × String)) (k : String) (dflt : String) : String :=
  (dictLookup d k).getD dflt

/-- Embedding of the topic-resolution expression
`TOPICS.get(topic, TOPICS['technology'])` (src/main.py line 67).
`TOPICS['technology']` is always present, so the inner default is inert. -/
def resolve (topic : String) : String :=
  dictGet TOPICS topic (dictGet TOPICS "technology" "")

/-- Calendar date, modelling the date part of a Python `datetime`.
The time-of-day part is dropped because `strftime('%Y-%m-%d')` ignores it. -/
structure Date where
  year : Nat
  month : Nat
  day : Nat
deriving DecidableEq

/-- Gregorian leap-year test, as used by Python `datetime` arithmetic. -/
def isLeap (y : Nat) : Bool :=
  (y % 4 == 0 && y % 100 != 0) || y % 400 == 0

/-- Number of days in a month of a given year. -/
def daysInMonth (y m : Nat) : Nat :=
  if m == 2 then (if isLeap y then 29 else 28)
  else if m == 4 || m == 6 || m == 9 || m == 11 then 30
  else 31

/-- Embedding of `datetime.now() - timedelta(days=1)` (src/main.py line 63)
restricted to the date part: the previous calendar day. -/
def datePrev (d : Date) : Date :=
  if d.day > 1 then ⟨d.year, d.month, d.day - 1⟩
  else if d.month > 1 then ⟨d.year, d.month - 1, daysInMonth d.year (d.month - 1)⟩
  else ⟨d.year - 1, 12, 31⟩

/-- Zero-pad a number to two digits, as `%m` and `%d` do. -/
def pad2 (n : Nat) : String :=
  if n < 10 then "0" ++ toString n else toString n

/-- Zero-pad a number to four digits, as `%Y` does. -/
def pad4 (n : Nat) : String :=
  if n < 10 then "000" ++ toString n
  else if n < 100 then "00" ++ toString n
  else if n < 1000 then "0" ++ toString n
  else toString n

/-- Embedding of `strftime('%Y-%m-%d')` (src/main.py line 64). -/
def strftimeYMD (d : Date) : String :=
  pad4 d.year ++ "-" ++ pad2 d.month ++ "-" ++ pad2 d.day

/-- Raw article record as delivered by the NewsAPI adapter: `title` and
`url` are required, `source` carries a `name`, `description` may be absent
(`article.get('description', '')` supplies the default). -/
structure RawArticle where
  title : String
  sourceName : String
  url : String
  description : Option String
deriving DecidableEq

/-- Response shape of `newsapi.get_everything`: a record whose `articles`
field holds the raw articles (the code reads `articles['articles']`). -/
structure NewsResponse where
  articles : List RawArticle
deriving DecidableEq

/-- Keyword arguments of the single `newsapi.get_everything` call
(src/main.py lines 71-77). -/
structure AdapterRequest where
  q : String
  language : String
  from_param : String
  sort_by : String
  page_size : Nat
deriving DecidableEq

/-- Output record appended to `processed_articles` (src/main.py lines 92-99). -/
structure EnrichedArticle where
  title : String
  source : String
  url : String
  description : String
  sentiment : String
  compound_score : ℚ
deriving DecidableEq

/-- Body of the per-article loop (src/main.py lines 82-99): extract fields,
default a missing description to the empty string, score the title and
classify the compound score. -/
def enrich (a : RawArticle) (compound_score : ℚ) : EnrichedArticle :=
  { title := a.title
    source := a.sourceName
    url := a.url
    description := a.description.getD ""
    sentiment := get_sentiment_label compound_score
    compound_score := compound_score }

/-- The article loop of `analyze_news` (src/main.py lines 80-99) under the
enclosing `try`: `polarity` models `analyzer.polarity_scores(title)['compound']`
and an `Except.error` models a raised exception, which escapes the loop. -/
def processLoop (polarity : String → Except Unit ℚ) :
    List RawArticle → Except Unit (List EnrichedArticle)
  | [] => Except.ok []
  | a :: rest =>
    match polarity a.title with
    | Except.error e => Except.error e
    | Except.ok compound_score =>
      match processLoop polarity rest with
      | Except.error e => Except.error e
      | Except.ok tail => Except.ok (enrich a compound_score :: tail)

/-- The request `analyze_news` builds for the adapter (src/main.py lines
62-77): resolved query, language "en", yesterday's date string, sort by
`publishedAt`, page size 10. -/
def theRequest (d : Date) (topic : String) : AdapterRequest :=
  let yesterday := datePrev d
  let yesterday_str := strftimeYMD yesterday
  let search_query := dictGet TOPICS topic (dictGet TOPICS "technology" "")
  { q := search_query
    language := "en"
    from_param := yesterday_str
    sort_by := "publishedAt"
    page_size := 10 }

/-- Embedding of `analyze_news` (src/main.py lines 59-106), instrumented
with the list of adapter requests issued (the code has exactly one call
site, on the single straight-line path before the loop). `fetch` models
`newsapi.get_everything`; any exception from the fetch or from the loop is
caught by the enclosing `except`, which returns `[]`. -/
def analyze_newsT (fetch : AdapterRequest → Except Unit NewsResponse)
    (polarity : String → Except Unit ℚ) (d : Date) (topic : String) :
    List EnrichedArticle × List AdapterRequest :=
  let req := theRequest d topic
  match fetch req with
  | Except.error _ => ([], [req])
  | Except.ok resp =>
    match processLoop polarity resp.articles with
    | Except.error _ => ([], [req])
    | Except.ok processed_articles => (processed_articles, [req])

/-- The value `analyze_news` returns to its caller. -/
def analyze_news (fetch : AdapterRequest → Except Unit NewsResponse)
    (polarity : String → Except Unit ℚ) (d : Date) (topic : String) :
    List EnrichedArticle :=
  (analyze_newsT fetch polarity d topic).1

/-- HTTP response of the `/get_news` endpoint: status plus the article
payload of `jsonify({'articles': articles})`. -/
structure NewsHttpResponse where
  status : Nat
  articles : List EnrichedArticle
deriving DecidableEq

/-- Embedding of the `/get_news` handler (src/main.py lines 168-177):
`request.args.get('topic', 'technology')` then `analyze_news`. The handler
body never raises in this model, so the 500 branch is unreachable. -/
def get_news (fetch : AdapterRequest → Except Unit NewsResponse)
    (polarity : String → Except Unit ℚ) (d : Date)
    (topicArg : Option String) : NewsHttpResponse :=
  let topic := topicArg.getD "technology"
  { status := 200, articles := analyze_news fetch polarity d topic }

/-- JSON body returned by the `/chat` endpoint. -/
inductive ChatBody where
  | error (msg : String)
  | response (text : String)
deriving DecidableEq

/-- Python truthiness of `data.get('message')`: `None` and the empty
string are falsy, a non-empty string is truthy. -/
def pyTruthy : Option String → Bool
  | none => false
  | some s => s != ""

/-- Embedding of the `/chat` handler (src/main.py lines 179-193): `message`
is the value of the `"message"` key of the parsed body (`none` when the key
is absent); `if not message` yields the 400 error, otherwise the handler
returns `get_chat_response(message)` (modelled by `getResp`, which is total
because `get_chat_response` catches its own exceptions). -/
def chat (getResp : String → String) (message : Option String) :
    Nat × ChatBody :=
  if pyTruthy message = false then (400, ChatBody.error "Missing message")
  else (200, ChatBody.response (getResp (message.getD "")))

/-! ### Concrete fixtures used by witnesses and counterexamples -/

/-- A fixed current date for concrete runs. -/
def exDate : Date := ⟨2026, 10, 12⟩

/-- A raw article whose title the failing scorer rejects. -/
def exBad : RawArticle := ⟨"awful", "SrcA", "http://a", some "d1"⟩

/-- A raw article with a missing description. -/
def exGood : RawArticle := ⟨"fine", "SrcB", "http://b", none⟩

/-- An adapter that succeeds with a two-article batch. -/
def exFetch2 : AdapterRequest → Except Unit NewsResponse :=
  fun _ => Except.ok ⟨[exBad, exGood]⟩

/-- An adapter whose call raises. -/
def exFetchErr : AdapterRequest → Except Unit NewsResponse :=
  fun _ => Except.error ()

/-- A scorer that raises exactly on the title "awful". -/
def exPolarityFail : String → Except Unit ℚ :=
  fun t => if t == "awful" then Except.error () else Except.ok (mkRat 6 10)

/-- A scorer that succeeds on every title. -/
def exPolarityOk : String → Except Unit ℚ :=
  fun t => if t == "awful" then Except.ok (-(mkRat 7 10)) else Except.ok (mkRat 6 10)

/-! ### Helper lemmas about the processing loop -/

/-- A successful loop pairs every raw article with its enriched output. -/
theorem processLoop_ok_forall₂ (p : String → Except Unit ℚ) :
    ∀ (l : List RawArticle) (out : List EnrichedArticle),
      processLoop p l = Except.ok out →
      List.Forall₂ (fun a e => p a.title = Except.ok e.compound_score ∧
        e = enrich a e.compound_score) l out := by
  intro l
  induction l with
  | nil =>
    intro out h
    simp only [processLoop, Except.ok.injEq] at h
    subst h
    exact List.Forall₂.nil
  | cons a rest ih =>
    intro out h
    cases hp : p a.title with
    | error e => simp [processLoop, hp] at h
    | ok c =>
      cases hr : processLoop p rest with
      | error e => simp [processLoop, hp, hr] at h
      | ok tail =>
        simp only [processLoop, hp, hr, Except.ok.injEq] at h
        subst h
        exact List.Forall₂.cons ⟨hp, rfl⟩ (ih tail hr)

/-- Every member of a successful loop's output is the enrichment of a member
of the input that scored successfully. -/
theorem processLoop_mem (p : String → Except Unit ℚ) :
    ∀ (l : List RawArticle) (out : List EnrichedArticle),
      processLoop p l = Except.ok out →
      ∀ e ∈ out, ∃ a ∈ l, ∃ c, p a.title = Except.ok c ∧ e = enrich a c := by
  intro l
  induction l with
  | nil =>
    intro out h e he
    simp only [processLoop, Except.ok.injEq] at h
    subst h
    exact absurd he (List.not_mem_nil e)
  | cons a rest ih =>
    intro out h e he
    cases hp : p a.title with
    | error err => simp [processLoop, hp] at h
    | ok c =>
      cases hr : processLoop p rest with
      | error err => simp [processLoop, hp, hr] at h
      | ok tail =>
        simp only [processLoop, hp, hr, Except.ok.injEq] at h
        subst h
        rcases List.mem_cons.mp he with h1 | h1
        · exact ⟨a, List.mem_cons_self a rest, c, hp, h1⟩
        · rcases ih tail hr e h1 with ⟨b, hb, c2, hc2, hec⟩
          exact ⟨b, List.mem_cons_of_mem a hb, c2, hc2, hec⟩

/-- The loop raises as soon as any article of the batch fails to score. -/
theorem processLoop_error_of_mem (p : String → Except Unit ℚ) :
    ∀ (l : List RawArticle) (a : RawArticle), a ∈ l →
      p a.title = Except.error () → processLoop p l = Except.error () := by
  intro l
  induction l with
  | nil => intro a ha _; exact absurd ha (List.not_mem_nil a)
  | cons b rest ih =>
    intro a ha hp
    rcases List.mem_cons.mp ha with h | h
    · subst h
      simp [processLoop, hp]
    · cases hb : p b.title with
      | error e => cases e; simp [processLoop, hb]
      | ok c => simp [processLoop, hb, ih a h hp]

/-- Unfolding of a fully successful run of `analyze_news`. -/
theorem analyze_news_ok (f : AdapterRequest → Except Unit NewsResponse)
    (p : String → Except Unit ℚ) (d : Date) (t : String)
    (resp : NewsResponse) (out : List EnrichedArticle)
    (hf : f (theRequest d t) = Except.ok resp)
    (hl : processLoop p resp.articles = Except.ok out) :
    analyze_news f p d t = out := by
  simp [analyze_news, analyze_newsT, hf, hl]

/-- Every member of `analyze_news` output arises from a successful fetch and
a successfully scored raw article of that fetch. -/
theorem mem_analyze_news (f : AdapterRequest → Except Unit NewsResponse)
    (p : String → Except Unit ℚ) (d : Date) (t : String) (e : EnrichedArticle)
    (he : e ∈ analyze_news f p d t) :
    ∃ resp, f (theRequest d t) = Except.ok resp ∧
      ∃ a ∈ resp.articles, ∃ c, p a.title = Except.ok c ∧ e = enrich a c := by
  cases hf : f (theRequest d t) with
  | error err =>
    have hout : analyze_news f p d t = [] := by
      simp [analyze_news, analyze_newsT, hf]
    rw [hout] at he
    exact absurd he (List.not_mem_nil e)
  | ok resp =>
    cases hl : processLoop p resp.articles with
    | error err =>
      have hout : analyze_news f p d t = [] := by
        simp [analyze_news, analyze_newsT, hf, hl]
      rw [hout] at he
      exact absurd he (List.not_mem_nil e)
    | ok out =>
      have hout : analyze_news f p d t = out :=
        analyze_news_ok f p d t resp out hf hl
      rw [hout] at he
      exact ⟨resp, rfl, processLoop_mem p resp.articles out hl e he⟩

/-- The source literal `0.05` as an exact rational. -/
theorem mkRat_five_hundredths : (mkRat 5 100 : ℚ) = 5/100 := by
  norm_num [mkRat]

/-- C1: for every compound score `s`, `get_sentiment_label s` is "Positive"
iff `s ≥ 0.05`, "Negative" iff `s ≤ -0.05`, and "Neutral" otherwise; in
particular the boundary values 0.05, -0.05, 0.0 and 0.049 classify as
"Positive", "Negative", "Neutral" and "Neutral" respectively. -/
theorem c1_sentiment_label_thresholds :
    (∀ s : ℚ, (get_sentiment_label s = "Positive" ↔ s ≥ 5/100) ∧
      (get_sentiment_label s = "Negative" ↔ s ≤ -(5/100)) ∧
      (get_sentiment_label s = "Neutral" ↔ (-(5/100) < s ∧ s < 5/100))) ∧
    get_sentiment_label (5/100) = "Positive" ∧
    get_sentiment_label (-(5/100)) = "Negative" ∧
    get_sentiment_label 0 = "Neutral" ∧
    get_sentiment_label (49/1000) = "Neutral" := by
  have hmk : (mkRat 5 100 : ℚ) = 5/100 := mkRat_five_hundredths
  refine ⟨fun s => ?_, ?_, ?_, ?_, ?_⟩
  · simp only [get_sentiment_label, hmk]
    split_ifs with h1 h2
    · refine ⟨⟨fun _ => h1, fun _ => rfl⟩, ⟨fun h => ?_, fun h => ?_⟩,
        ⟨fun h => ?_, fun h => ?_⟩⟩
      · exact absurd h (by decide)
      · exact absurd (lt_of_lt_of_le (lt_of_le_of_lt h (by norm_num)) h1)
          (lt_irrefl s)
      · exact absurd h (by decide)
      · exact absurd (lt_of_le_of_lt h1 h.2) (lt_irrefl _)
    · refine ⟨⟨fun h => ?_, fun h => ?_⟩, ⟨fun _ => h2, fun _ => rfl⟩,
        ⟨fun h => ?_, fun h => ?_⟩⟩
      · exact absurd h (by decide)
      · exact absurd h h1
      · exact absurd h (by decide)
      · exact absurd (lt_of_le_of_lt h2 h.1) (lt_irrefl _)
    · refine ⟨⟨fun h => ?_, fun h => ?_⟩, ⟨fun h => ?_, fun h => ?_⟩,
        ⟨fun _ => ?_, fun _ => rfl⟩⟩
      · exact absurd h (by decide)
      · exact absurd h h1
      · exact absurd h (by decide)
      · exact absurd h h2
      · push_neg at h1 h2
        exact ⟨h2, h1⟩
  · simp only [get_sentiment_label, hmk]
    norm_num
  · simp only [get_sentiment_label, hmk]
    norm_num
  · simp only [get_sentiment_label, hmk]
    norm_num
  · simp only [get_sentiment_label, hmk]
    norm_num

/-- C2 counterexample: the adapter delivers two articles and scoring raises
only on the first; the claim predicts the second (successfully scorable)
article is still in the output, but `analyze_news` returns the empty list —
the single `try`/`except` wraps the whole loop, so one failure drops the
entire batch. -/
theorem c2_counterexample :
    analyze_news exFetch2 exPolarityFail exDate "technology" = [] ∧
    exFetch2 (theRequest exDate "technology") =
      Except.ok (NewsResponse.mk [exBad, exGood]) ∧
    exPolarityFail exBad.title = Except.error () ∧
    exPolarityFail exGood.title = Except.ok (mkRat 6 10) := by
  refine ⟨by decide, rfl, rfl, rfl⟩

/-- C2 (amended): if the scoring call raises for any article of the batch,
`analyze_news` catches the exception at the batch level and returns the
empty list — the whole batch, including articles that would have scored
successfully, is dropped; no exception propagates to the caller. -/
theorem c2_scoring_failure_drops_batch
    (f : AdapterRequest → Except Unit NewsResponse)
    (p : String → Except Unit ℚ) (d : Date) (t : String)
    (resp : NewsResponse) (a : RawArticle)
    (hf : f (theRequest d t) = Except.ok resp) (ha : a ∈ resp.articles)
    (hp : p a.title = Except.error ()) :
    analyze_news f p d t = [] := by
  have hl : processLoop p resp.articles = Except.error () :=
    processLoop_error_of_mem p resp.articles a ha hp
  simp [analyze_news, analyze_newsT, hf, hl]

/-- Witness for the amended C2 at a concrete two-article batch. -/
theorem c2_scoring_failure_drops_batch_witness :
    analyze_news exFetch2 exPolarityFail exDate "business" = [] :=
  c2_scoring_failure_drops_batch exFetch2 exPolarityFail exDate "business"
    (NewsResponse.mk [exBad, exGood]) exBad rfl (by decide) rfl

/-- C3: when the adapter call succeeds, the output of `analyze_news` is no
longer than the raw batch and corresponds, in order, to a sublist of the raw
articles each of which scored successfully (the `Forall₂` pairing preserves
the adapter's relative order; no re-sorting happens). -/
theorem c3_output_correspondence
    (f : AdapterRequest → Except Unit NewsResponse)
    (p : String → Except Unit ℚ) (d : Date) (t : String)
    (resp : NewsResponse) (hf : f (theRequest d t) = Except.ok resp) :
    (analyze_news f p d t).length ≤ resp.articles.length ∧
    ∃ sub : List RawArticle, List.Sublist sub resp.articles ∧
      List.Forall₂ (fun a e => p a.title = Except.ok e.compound_score ∧
        e = enrich a e.compound_score) sub (analyze_news f p d t) := by
  cases hl : processLoop p resp.articles with
  | error err =>
    cases err
    have hout : analyze_news f p d t = [] := by
      simp [analyze_news, analyze_newsT, hf, hl]
    rw [hout]
    exact ⟨Nat.zero_le _, [], List.nil_sublist _, List.Forall₂.nil⟩
  | ok out =>
    have hout : analyze_news f p d t = out :=
      analyze_news_ok f p d t resp out hf hl
    rw [hout]
    have h2 := processLoop_ok_forall₂ p resp.articles out hl
    exact ⟨le_of_eq h2.length_eq.symm, resp.articles, List.Sublist.refl _, h2⟩

/-- Witness for C3 at a concrete successful two-article run. -/
theorem c3_output_correspondence_witness :
    (analyze_news exFetch2 exPolarityOk exDate "technology").length ≤
      (NewsResponse.mk [exBad, exGood]).articles.length ∧
    ∃ sub : List RawArticle,
      List.Sublist sub (NewsResponse.mk [exBad, exGood]).articles ∧
      List.Forall₂ (fun a e => exPolarityOk a.title = Except.ok e.compound_score ∧
        e = enrich a e.compound_score) sub
        (analyze_news exFetch2 exPolarityOk exDate "technology") :=
  c3_output_correspondence exFetch2 exPolarityOk exDate "technology"
    (NewsResponse.mk [exBad, exGood]) rfl

/-- C4: if the adapter call itself raises, `analyze_news` returns the empty
list (the return type is a plain list, so no exception reaches the caller). -/
theorem c4_adapter_failure_empty
    (f : AdapterRequest → Except Unit NewsResponse)
    (p : String → Except Unit ℚ) (d : Date) (t : String)
    (hf : f (theRequest d t) = Except.error ()) :
    analyze_news f p d t = [] := by
  simp [analyze_news, analyze_newsT, hf]

/-- Witness for C4 with an always-raising adapter. -/
theorem c4_adapter_failure_empty_witness :
    analyze_news exFetchErr exPolarityOk exDate "science" = [] :=
  c4_adapter_failure_empty exFetchErr exPolarityOk exDate "science" rfl

/-- C5: topic resolution is total; a key present in `TOPICS` resolves to its
own expression, and a key absent from `TOPICS` resolves to the expression of
the default key "technology". -/
theorem c5_topic_resolution (k : String) :
    (∀ e, dictLookup TOPICS k = some e → resolve k = e) ∧
    (dictLookup TOPICS k = none → resolve k = resolve "technology") := by
  constructor
  · intro e he
    simp [resolve, dictGet, he]
  · intro hn
    simp only [resolve, dictGet, hn, Option.getD_none]
    decide

/-- Witness for C5 at a present key and an absent key. -/
theorem c5_topic_resolution_witness :
    resolve "sports" = "sports OR football OR basketball OR soccer OR tennis" ∧
    resolve "nosuchtopic" = resolve "technology" :=
  ⟨(c5_topic_resolution "sports").1 _ (by decide),
   (c5_topic_resolution "nosuchtopic").2 (by decide)⟩

/-- C6: every item of an `analyze_news` output is the enrichment of some raw
article, its `description` field is the raw description with the empty
string as default, and in particular a missing raw description yields the
empty string; the field always exists and is a plain string, never null. -/
theorem c6_description_default
    (f : AdapterRequest → Except Unit NewsResponse)
    (p : String → Except Unit ℚ) (d : Date) (t : String) (e : EnrichedArticle)
    (he : e ∈ analyze_news f p d t) :
    ∃ (a : RawArticle) (c : ℚ), e = enrich a c ∧
      e.description = a.description.getD "" ∧
      (a.description = none → e.description = "") := by
  obtain ⟨resp, hf, a, ha, c, hp, rfl⟩ := mem_analyze_news f p d t e he
  refine ⟨a, c, rfl, rfl, fun hd => ?_⟩
  simp [enrich, hd]

/-- Witness for C6: the article with a missing description comes out with
the empty-string description. -/
theorem c6_description_default_witness :
    ∃ (a : RawArticle) (c : ℚ), enrich exGood (mkRat 6 10) = enrich a c ∧
      (enrich exGood (mkRat 6 10)).description = a.description.getD "" ∧
      (a.description = none → (enrich exGood (mkRat 6 10)).description = "") :=
  c6_description_default exFetch2 exPolarityOk exDate "technology"
    (enrich exGood (mkRat 6 10)) (by decide)

/-- C7: on every path, `analyze_news` issues exactly one adapter request,
whose query is the resolved search expression, language "en", published-after
bound the date string of the previous calendar day, sort key `publishedAt`,
and page size 10. -/
theorem c7_adapter_request
    (f : AdapterRequest → Except Unit NewsResponse)
    (p : String → Except Unit ℚ) (d : Date) (t : String) :
    (analyze_newsT f p d t).2 = [theRequest d t] ∧
    theRequest d t =
      { q := resolve t
        language := "en"
        from_param := strftimeYMD (datePrev d)
        sort_by := "publishedAt"
        page_size := 10 } := by
  refine ⟨?_, rfl⟩
  cases hf : f (theRequest d t) with
  | error err => simp [analyze_newsT, hf]
  | ok resp =>
    cases hl : processLoop p resp.articles with
    | error err => simp [analyze_newsT, hf, hl]
    | ok out => simp [analyze_newsT, hf, hl]

/-- C8: the `/get_news` handler behaves identically with no `topic`
parameter and with `topic=technology`, for every adapter and scorer. -/
theorem c8_default_topic
    (f : AdapterRequest → Except Unit NewsResponse)
    (p : String → Except Unit ℚ) (d : Date) :
    get_news f p d none = get_news f p d (some "technology") := rfl

/-- C9: the `/chat` handler returns 400 with the "Missing message" error
body when the message key is absent and also when it is present with the
falsy empty string; a non-empty message instead yields the 200 response. -/
theorem c9_chat_missing_message (getResp : String → String) :
    chat getResp none = (400, ChatBody.error "Missing message") ∧
    chat getResp (some "") = (400, ChatBody.error "Missing message") ∧
    ∀ s : String, s ≠ "" →
      chat getResp (some s) = (200, ChatBody.response (getResp s)) := by
  refine ⟨rfl, rfl, fun s hs => ?_⟩
  have hb : (s != "") = true := bne_iff_ne.mpr hs
  simp [chat, pyTruthy, hb]

/-- Witness for C9 at the concrete non-empty message "hello". -/
theorem c9_chat_missing_message_witness :
    chat (fun s => s) (some "hello") = (200, ChatBody.response "hello") :=
  (c9_chat_missing_message (fun s => s)).2.2 "hello" (by decide)

/-- C10: every output item carries the sentiment label computed by
`get_sentiment_label` from its own `compound_score` field, and that field is
exactly the scorer's compound value for the item's title. -/
theorem c10_item_consistency
    (f : AdapterRequest → Except Unit NewsResponse)
    (p : String → Except Unit ℚ) (d : Date) (t : String) (e : EnrichedArticle)
    (he : e ∈ analyze_news f p d t) :
    e.sentiment = get_sentiment_label e.compound_score ∧
    p e.title = Except.ok e.compound_score := by
  obtain ⟨resp, hf, a, ha, c, hp, rfl⟩ := mem_analyze_news f p d t e he
  exact ⟨rfl, hp⟩

/-- Witness for C10 at a concrete output item. -/
theorem c10_item_consistency_witness :
    (enrich exGood (mkRat 6 10)).sentiment =
      get_sentiment_label (enrich exGood (mkRat 6 10)).compound_score ∧
    exPolarityOk (enrich exGood (mkRat 6 10)).title =
      Except.ok (enrich exGood (mkRat 6 10)).compound_score :=
  c10_item_consistency exFetch2 exPolarityOk exDate "technology"
    (enrich exGood (mkRat 6 10)) (by decide)
